import Mathlib

/-!
Shallow embedding of `ncli_utils/utils.py` (nagios-api command-line
utilities): the duration parser `time_to_seconds`, the status classifier
`status_to_s`, the entity model (`HostOrService`, `Host`, `Service`) and
the summary renderer `Service.pp`.

Python dictionaries of string keys are embedded as association lists,
dictionary reads thread the dictionary value through explicitly so that
frame properties (the input mapping is not mutated) are expressible.
Python exceptions are embedded as `Except PyErr`: a `KeyError` on the
attribute mapping is `PyErr.missingField`, a `KeyError` on the status
map is `PyErr.unknownStatusCode` (the names the specification gives to
those two failure sites), an `AttributeError` is `PyErr.attributeError`,
and an unbound global name is `PyErr.nameError`.
-/

namespace NcliUtils

/-- Errors the embedded Python code can raise. -/
inductive PyErr where
  | missingField (field : String)
  | unknownStatusCode (code : String)
  | attributeError (attr : String)
  | nameError (n : String)
deriving DecidableEq

/-- A raw attribute mapping: Python dict from field name to string value. -/
abbrev RawAttrs := List (String × String)

/-- Python dict read `d[key]` as a pure lookup (first binding wins). -/
def dictLookup {α : Type} (d : List (String × α)) (key : String) : Option α :=
  match d with
  | [] => none
  | (k, v) :: rest => if k = key then some v else dictLookup rest key

/-- Python dict write `d[key] = v`: overwrite in place, else append. -/
def dictSet {α : Type} (d : List (String × α)) (key : String) (v : α) :
    List (String × α) :=
  match d with
  | [] => [(key, v)]
  | (k, w) :: rest => if k = key then (key, v) :: rest else (k, w) :: dictSet rest key v

/-! ## time_to_seconds -/

/-- The character class `[wdhms]` of the regex in `time_to_seconds`. -/
def durationClass : List Char := ['w', 'd', 'h', 'm', 's']

/-- The multiplier dict `{'w': 604800, 'd': 86400, 'h': 3600, 'm': 60, 's': 1}`. -/
def durationTable : List (Char × Nat) := [('w', 604800), ('d', 86400), ('h', 3600), ('m', 60), ('s', 1)]

/-- Python `int(val)` on a string of decimal digits. -/
def pyIntOfDigits (ds : List Char) : Nat :=
  ds.foldl (fun a c => 10 * a + (c.toNat - Char.toNat '0')) 0

/-- The regex match `re.match(r'^(\d+)([wdhms])?$', inp)`: on success the
two capture groups (the digit run, the optional unit letter).  The digit
run is the maximal leading run of digits; since no unit letter is a digit
the greedy `\d+` never needs to backtrack. -/
def matchDuration (cs : List Char) : Option (List Char × Option Char) :=
  if cs.takeWhile Char.isDigit = [] then none
  else
    match cs.dropWhile Char.isDigit with
    | [] => some (cs.takeWhile Char.isDigit, none)
    | [u] => if u ∈ durationClass then some (cs.takeWhile Char.isDigit, some u) else none
    | _ => none

/-- The parse the body of `time_to_seconds` spells out — the regex match
and the multiplier arithmetic — that is, the function's behaviour once
the name `re` resolves to the regex module; `none` embeds Python `None`
for a non-match.  The multiplier dict lookup is total on the regex's
character class, so the `getD 0` default is never taken. -/
def time_to_seconds_body (inp : String) : Option Nat :=
  match matchDuration inp.data with
  | none => none
  | some (val, none) => some (pyIntOfDigits val)
  | some (val, some u) => some (pyIntOfDigits val * ((durationTable.lookup u).getD 0))

/-- The names bound in the module's global namespace: `import sys` plus
the module-level definitions.  The module never imports `re`. -/
def moduleGlobals : List String :=
  ["sys", "time_to_seconds", "trim", "status_to_s", "HostOrService", "Host", "Service"]

/-- `time_to_seconds(inp)`: the first statement evaluates `re.match`,
which resolves the global name `re`.  That name is unbound in this
module, so the call raises `NameError` before any matching happens; on
the counterfactual path where `re` resolves, the body computes
`time_to_seconds_body`. -/
def time_to_seconds (inp : String) : Except PyErr (Option Nat) :=
  if "re" ∈ moduleGlobals then Except.ok (time_to_seconds_body inp)
  else Except.error (PyErr.nameError "re")

/-! ## status_to_s -/

/-- The literal `status_map` dict of `status_to_s`. -/
def statusMap : RawAttrs := [("0", "OK"), ("1", "WARN"), ("2", "CRIT"), ("3", "UNK")]

/-- `status_to_s(state)`: classify a raw state code; the `KeyError`
raised by `status_map[state]` on an undefined code is the specification's
`UnknownStatusCode`. -/
def status_to_s (state : String) : Except PyErr String :=
  match dictLookup statusMap state with
  | some v => Except.ok v
  | none => Except.error (PyErr.unknownStatusCode state)

/-! ## HostOrService -/

/-- An entity built by `HostOrService.__init__`: the name plus the
thirteen required status fields, all strings. -/
structure HostOrService where
  name : String
  current_state : String
  plugin_output : String
  notifications_enabled : String
  last_check : String
  last_notification : String
  active_checks_enabled : String
  problem_has_been_acknowledged : String
  last_hard_state : String
  scheduled_downtime_depth : String
  performance_data : String
  last_state_change : String
  current_attempt : String
  max_attempts : String
deriving DecidableEq

/-- The class attribute `HostOrService.attrs`: the thirteen required
field names, in declared order. -/
def requiredFields : List String :=
  ["current_state", "plugin_output", "notifications_enabled", "last_check",
   "last_notification", "active_checks_enabled", "problem_has_been_acknowledged",
   "last_hard_state", "scheduled_downtime_depth", "performance_data",
   "last_state_change", "current_attempt", "max_attempts"]

/-- Python `attributes[key]`: a dict read that returns the (unchanged)
dict alongside the value, or raises `KeyError` — the specification's
`MissingField` — when the key is absent. -/
def dictGetItem (attrs : RawAttrs) (key : String) : Except PyErr String × RawAttrs :=
  match dictLookup attrs key with
  | some v => (Except.ok v, attrs)
  | none => (Except.error (PyErr.missingField key), attrs)

/-- Sequencing of a dict-threading computation: on error the exception
propagates with the dictionary state it left behind. -/
def step {α β : Type} (x : Except PyErr α × RawAttrs)
    (f : α → RawAttrs → Except PyErr β × RawAttrs) : Except PyErr β × RawAttrs :=
  match x with
  | (Except.ok a, d) => f a d
  | (Except.error e, d) => (Except.error e, d)

/-- Sequencing of a pure `Except` computation into a dict-threading one. -/
def stepE {α β : Type} (x : Except PyErr α) (d : RawAttrs)
    (f : α → RawAttrs → Except PyErr β × RawAttrs) : Except PyErr β × RawAttrs :=
  match x with
  | Except.ok a => f a d
  | Except.error e => (Except.error e, d)

/-- `HostOrService.__init__(self, name, attributes)`: reads the thirteen
required fields in source order, classifying `current_state` immediately
after reading it.  `name.decode('utf-8')` is the identity here since the
embedding's names are already unicode strings.  The attribute mapping is
threaded through every read so the result records the final dictionary
state. -/
def hsInit (name : String) (attributes : RawAttrs) : Except PyErr HostOrService × RawAttrs :=
  step (dictGetItem attributes "current_state") fun rawState d =>
  stepE (status_to_s rawState) d fun current_state d =>
  step (dictGetItem d "plugin_output") fun plugin_output d =>
  step (dictGetItem d "notifications_enabled") fun notifications_enabled d =>
  step (dictGetItem d "last_check") fun last_check d =>
  step (dictGetItem d "last_notification") fun last_notification d =>
  step (dictGetItem d "active_checks_enabled") fun active_checks_enabled d =>
  step (dictGetItem d "problem_has_been_acknowledged") fun problem_has_been_acknowledged d =>
  step (dictGetItem d "last_hard_state") fun last_hard_state d =>
  step (dictGetItem d "scheduled_downtime_depth") fun scheduled_downtime_depth d =>
  step (dictGetItem d "performance_data") fun performance_data d =>
  step (dictGetItem d "last_state_change") fun last_state_change d =>
  step (dictGetItem d "current_attempt") fun current_attempt d =>
  step (dictGetItem d "max_attempts") fun max_attempts d =>
  (Except.ok
    { name := name, current_state := current_state, plugin_output := plugin_output,
      notifications_enabled := notifications_enabled, last_check := last_check,
      last_notification := last_notification, active_checks_enabled := active_checks_enabled,
      problem_has_been_acknowledged := problem_has_been_acknowledged,
      last_hard_state := last_hard_state, scheduled_downtime_depth := scheduled_downtime_depth,
      performance_data := performance_data, last_state_change := last_state_change,
      current_attempt := current_attempt, max_attempts := max_attempts }, d)

/-! ## Host and Service -/

/-- A `Service`: the shared entity fields plus the `host` reference set
in `Service.__init__` or by `Service.attach_host`. -/
structure Service extends HostOrService where
  host : String
deriving DecidableEq

/-- A `Host`: the shared entity fields plus the `services` dict created
in `Host.__init__`. -/
structure Host extends HostOrService where
  services : List (String × Service)
deriving DecidableEq

/-- `Host(name, attributes)`: run the shared `HostOrService.__init__`,
then set `self.services = {}`. -/
def Host.make (name : String) (attributes : RawAttrs) : Except PyErr Host × RawAttrs :=
  match hsInit name attributes with
  | (Except.ok hs, d) => (Except.ok { toHostOrService := hs, services := [] }, d)
  | (Except.error e, d) => (Except.error e, d)

/-- Python dynamic attribute lookup on a `Service` object: the attributes
a `Service` instance actually has after `__init__` are `name`, the
thirteen status fields, and `host`.  Any other attribute name raises
`AttributeError`, embedded as `none`. -/
def Service.getattr (s : Service) (attr : String) : Option String :=
  if attr = "name" then some s.name
  else if attr = "current_state" then some s.current_state
  else if attr = "plugin_output" then some s.plugin_output
  else if attr = "notifications_enabled" then some s.notifications_enabled
  else if attr = "last_check" then some s.last_check
  else if attr = "last_notification" then some s.last_notification
  else if attr = "active_checks_enabled" then some s.active_checks_enabled
  else if attr = "problem_has_been_acknowledged" then some s.problem_has_been_acknowledged
  else if attr = "last_hard_state" then some s.last_hard_state
  else if attr = "scheduled_downtime_depth" then some s.scheduled_downtime_depth
  else if attr = "performance_data" then some s.performance_data
  else if attr = "last_state_change" then some s.last_state_change
  else if attr = "current_attempt" then some s.current_attempt
  else if attr = "max_attempts" then some s.max_attempts
  else if attr = "host" then some s.host
  else none

/-- `Host.attach_service(self, svc)`: `self.services[svc.service] = svc`.
The key expression is the dynamic attribute read `svc.service`; a
`Service` defines no attribute named `service`, so the read raises
`AttributeError` before the dict write. -/
def Host.attach_service (h : Host) (svc : Service) : Except PyErr Host :=
  match Service.getattr svc "service" with
  | some key => Except.ok { h with services := dictSet h.services key svc }
  | none => Except.error (PyErr.attributeError "service")

/-- `Service(name, attributes, host=None)`: run the shared
`HostOrService.__init__`, then `self.host = host.decode('utf-8')`.  When
the `host` argument is left at its `None` default, `None.decode` raises
`AttributeError`; on a string argument the decode is the identity. -/
def Service.make (name : String) (attributes : RawAttrs) (host : Option String) :
    Except PyErr Service × RawAttrs :=
  match hsInit name attributes with
  | (Except.error e, d) => (Except.error e, d)
  | (Except.ok hs, d) =>
    match host with
    | none => (Except.error (PyErr.attributeError "decode"), d)
    | some h => (Except.ok { toHostOrService := hs, host := h }, d)

/-- `Service.attach_host(self, host)`: `self.host = host`. -/
def Service.attach_host (s : Service) (host : String) : Service :=
  { s with host := host }

/-! ## Summary rendering -/

/-- Python slice `s[:n]`: the first `n` characters (all of `s` when it is
shorter). -/
def pySlice (s : String) (n : Nat) : String := String.mk (s.data.take n)

/-- Python `s.ljust(width)`: pad with spaces on the right up to `width`;
a string already at least `width` long is returned unchanged. -/
def ljust (s : String) (width : Nat) : String :=
  String.mk (s.data ++ List.replicate (width - s.data.length) ' ')

/-- The Python `cond and a or b` idiom on strings: `a` when `cond` holds
and `a` is truthy (non-empty), else `b`. -/
def pyAndOr (cond : Bool) (a b : String) : String :=
  if cond then (if a = "" then b else a) else b

/-- First column of `Service.pp`: `self.host.ljust(25)`. -/
def Service.col_host (s : Service) : String := ljust s.host 25

/-- Second column of `Service.pp`: `self.name[:35].ljust(35)`. -/
def Service.col_name (s : Service) : String := ljust (pySlice s.name 35) 35

/-- Third column of `Service.pp`: `self.plugin_output[:35].ljust(35)`. -/
def Service.col_output (s : Service) : String := ljust (pySlice s.plugin_output 35) 35

/-- Fifth column of `Service.pp`:
`self.problem_has_been_acknowledged == "1" and "ACK" or " "`. -/
def Service.col_ack (s : Service) : String :=
  pyAndOr (s.problem_has_been_acknowledged = "1") "ACK" " "

/-- Sixth column of `Service.pp`:
`self.notifications_enabled == "1" and " " or "MUTED"`. -/
def Service.col_muted (s : Service) : String :=
  pyAndOr (s.notifications_enabled = "1") " " "MUTED"

/-- `Service.pp`: the printed summary line, six tab-separated columns. -/
def Service.pp (s : Service) : String :=
  Service.col_host s ++ "\t" ++ Service.col_name s ++ "\t" ++ Service.col_output s ++ "\t"
    ++ s.current_state ++ "\t" ++ Service.col_ack s ++ "\t" ++ Service.col_muted s

/-! ## Helpers used by statements -/

/-- The first required field (in declared order) absent from a mapping. -/
def firstMissingField (attrs : RawAttrs) : Option String :=
  requiredFields.find? (fun f => (dictLookup attrs f).isNone)

/-- A complete attribute mapping used as a concrete test vector. -/
def demoAttrs : RawAttrs :=
  [("current_state", "2"), ("plugin_output", "DISK CRITICAL"),
   ("notifications_enabled", "1"), ("last_check", "1300000000"),
   ("last_notification", "1300000100"), ("active_checks_enabled", "1"),
   ("problem_has_been_acknowledged", "0"), ("last_hard_state", "2"),
   ("scheduled_downtime_depth", "0"), ("performance_data", "used=97%"),
   ("last_state_change", "1299999000"), ("current_attempt", "3"),
   ("max_attempts", "3")]

/-! ## Claim theorems -/

/-- Claim C2: the status classifier maps exactly `"0"`, `"1"`, `"2"`,
`"3"` to `OK`, `WARN`, `CRIT`, `UNK`, and every other input string fails
with `UnknownStatusCode` carrying the offending code — no default
severity is ever returned. -/
theorem status_to_s_exhaustive :
    (status_to_s "0" = Except.ok "OK" ∧ status_to_s "1" = Except.ok "WARN" ∧
     status_to_s "2" = Except.ok "CRIT" ∧ status_to_s "3" = Except.ok "UNK") ∧
    ∀ state : String, state ∉ (["0", "1", "2", "3"] : List String) →
      status_to_s state = Except.error (PyErr.unknownStatusCode state) := by
  refine ⟨⟨rfl, rfl, rfl, rfl⟩, ?_⟩
  intro state hstate
  simp only [List.mem_cons, List.not_mem_nil, or_false, not_or] at hstate
  obtain ⟨h0, h1, h2, h3⟩ := hstate
  simp [status_to_s, statusMap, dictLookup, Ne.symm h0, Ne.symm h1, Ne.symm h2, Ne.symm h3]

/-- Witness for C2 at the concrete undefined code `"4"`. -/
theorem status_to_s_exhaustive_witness :
    status_to_s "4" = Except.error (PyErr.unknownStatusCode "4") :=
  status_to_s_exhaustive.2 "4" (by decide)

/-- Claim C6 (code bug): `Host.attach_service` never inserts anything —
for every host and every service it fails with `AttributeError` on the
nonexistent `service` attribute, so the services dict is never keyed by
the service's name and last-write-wins never happens. -/
theorem attach_service_raises :
    ∀ (h : Host) (svc : Service),
      Host.attach_service h svc = Except.error (PyErr.attributeError "service") := by
  intro h svc
  rfl

/-- Claim C7 (code bug): constructing a `Service` from a complete
attribute mapping with the owning-host reference absent (the `None`
default) does not succeed: it fails with `AttributeError` from
`None.decode('utf-8')`.  The second conjunct records the true half of the
claim: `attach_host` does replace whatever host reference is present. -/
theorem service_unattached_construction_fails :
    (Service.make "web" demoAttrs none).1 = Except.error (PyErr.attributeError "decode") ∧
    ∀ (s : Service) (h : String), (Service.attach_host s h).host = h := by
  exact ⟨rfl, fun s h => rfl⟩

/-- Claim C10: a freshly constructed `Host` owns zero services: whenever
`Host.make` succeeds, the resulting host's services dict is empty. -/
theorem host_make_services_empty (name : String) (attributes : RawAttrs) (h : Host)
    (hok : (Host.make name attributes).1 = Except.ok h) : h.services = [] := by
  unfold Host.make at hok
  split at hok
  · simp only at hok
    cases hok
    rfl
  · simp only at hok
    cases hok

/-- Padding to a width already met or exceeded is the identity:
`ljust` is a minimum-width operation, it never shortens. -/
theorem ljust_of_le (s : String) (width : Nat) (h : width ≤ s.data.length) :
    ljust s width = s := by
  unfold ljust
  rw [Nat.sub_eq_zero_of_le h, List.replicate_zero, List.append_nil]

/-- Claim C5: summary rendering of a service with a 50-character plugin
output, `problem_has_been_acknowledged = "1"` and
`notifications_enabled = "0"` yields the tab-separated line whose third
column is exactly the first 35 characters of the plugin output (the
padding is a no-op on it), whose fourth column is the severity name,
whose fifth column is the literal `"ACK"` and whose sixth column is the
literal `"MUTED"`. -/
theorem pp_summary_ack_muted (svc : Service)
    (hlen : svc.plugin_output.length = 50)
    (hack : svc.problem_has_been_acknowledged = "1")
    (hmut : svc.notifications_enabled = "0") :
    Service.pp svc =
      ljust svc.host 25 ++ "\t" ++ ljust (pySlice svc.name 35) 35 ++ "\t"
        ++ pySlice svc.plugin_output 35 ++ "\t" ++ svc.current_state
        ++ "\t" ++ "ACK" ++ "\t" ++ "MUTED" ∧
    (pySlice svc.plugin_output 35).data = svc.plugin_output.data.take 35 ∧
    (pySlice svc.plugin_output 35).length = 35 := by
  have hdata : svc.plugin_output.data.length = 50 := hlen
  have hslice : (pySlice svc.plugin_output 35).data.length = 35 := by
    simp [pySlice, hdata]
  refine ⟨?_, rfl, hslice⟩
  have hout : Service.col_output svc = pySlice svc.plugin_output 35 :=
    ljust_of_le _ _ (le_of_eq hslice.symm)
  have hcack : Service.col_ack svc = "ACK" := by
    simp [Service.col_ack, pyAndOr, hack]
  have hcmut : Service.col_muted svc = "MUTED" := by
    simp [Service.col_muted, pyAndOr, hmut]
  rw [Service.pp, hout, hcack, hcmut]
  rfl

/-- A concrete service with a 50-character plugin output, acknowledged
and with notifications disabled. -/
def demoSvcAck : Service :=
  { name := "load", current_state := "CRIT",
    plugin_output := "01234567890123456789012345678901234567890123456789",
    notifications_enabled := "0", last_check := "1300000000",
    last_notification := "1300000100", active_checks_enabled := "1",
    problem_has_been_acknowledged := "1", last_hard_state := "2",
    scheduled_downtime_depth := "0", performance_data := "load=9.8",
    last_state_change := "1299999000", current_attempt := "3",
    max_attempts := "3", host := "web" }

/-- Witness for C5 at the concrete acknowledged, muted service. -/
theorem pp_summary_ack_muted_witness :
    Service.pp demoSvcAck =
      ljust demoSvcAck.host 25 ++ "\t" ++ ljust (pySlice demoSvcAck.name 35) 35 ++ "\t"
        ++ pySlice demoSvcAck.plugin_output 35 ++ "\t" ++ demoSvcAck.current_state
        ++ "\t" ++ "ACK" ++ "\t" ++ "MUTED" ∧
    (pySlice demoSvcAck.plugin_output 35).data = demoSvcAck.plugin_output.data.take 35 ∧
    (pySlice demoSvcAck.plugin_output 35).length = 35 :=
  pp_summary_ack_muted demoSvcAck rfl rfl rfl

/-- Claim C8: truncation happens before padding and padding is a
minimum-width operation only: `ljust` returns any string already at its
target width unchanged, a host name longer than 25 characters is
rendered in full, and the name and output columns are exactly
truncate-to-35 then pad-to-35. -/
theorem pp_truncate_before_pad :
    (∀ (s : String) (width : Nat), width ≤ s.data.length → ljust s width = s) ∧
    (∀ svc : Service, 25 ≤ svc.host.data.length → Service.col_host svc = svc.host) ∧
    (∀ svc : Service,
      Service.col_name svc = ljust (pySlice svc.name 35) 35 ∧
      Service.col_output svc = ljust (pySlice svc.plugin_output 35) 35) := by
  refine ⟨ljust_of_le, ?_, fun svc => ⟨rfl, rfl⟩⟩
  intro svc hlong
  exact ljust_of_le _ _ hlong

/-- A concrete service whose host name is 26 characters long. -/
def demoSvcLongHost : Service :=
  { demoSvcAck with host := "a-very-long-host-name.test" }

/-- Witness for C8: the 26-character host name is not shortened by the
25-column padding. -/
theorem pp_truncate_before_pad_witness :
    Service.col_host demoSvcLongHost = demoSvcLongHost.host :=
  pp_truncate_before_pad.2.1 demoSvcLongHost (by decide)

/-- A dict read hands back the dictionary unchanged. -/
theorem dictGetItem_snd (attrs : RawAttrs) (key : String) :
    (dictGetItem attrs key).2 = attrs := by
  unfold dictGetItem
  split <;> rfl

/-- Sequencing preserves the dictionary when both sides do. -/
theorem step_snd {α β : Type} {x : Except PyErr α × RawAttrs} {A : RawAttrs}
    {f : α → RawAttrs → Except PyErr β × RawAttrs}
    (hx : x.2 = A) (hf : ∀ a d, (f a d).2 = d) : (step x f).2 = A := by
  obtain ⟨r, d⟩ := x
  cases r with
  | ok a => rw [step, hf]; exact hx
  | error e => exact hx

/-- Sequencing a pure computation preserves the dictionary when the
continuation does. -/
theorem stepE_snd {α β : Type} {x : Except PyErr α} {d : RawAttrs}
    {f : α → RawAttrs → Except PyErr β × RawAttrs}
    (hf : ∀ a d', (f a d').2 = d') : (stepE x d f).2 = d := by
  cases x with
  | ok a => exact hf a d
  | error e => rfl

/-- The shared constructor threads the attribute mapping through all
thirteen reads without changing it, also on the error paths. -/
theorem hsInit_snd (name : String) (attributes : RawAttrs) :
    (hsInit name attributes).2 = attributes := by
  unfold hsInit
  refine step_snd (dictGetItem_snd _ _) ?_
  intro _ _
  refine stepE_snd ?_
  intro _ _
  repeat (refine step_snd (dictGetItem_snd _ _) ?_; intro _ _)
  rfl

/-- Claim C9: entity construction never mutates the input attribute
mapping — for every mapping, the mapping coming out of a `Host` or
`Service` construction (successful or failed) is the one that went in. -/
theorem construction_preserves_attrs (name : String) (attributes : RawAttrs) :
    (hsInit name attributes).2 = attributes ∧
    (Host.make name attributes).2 = attributes ∧
    ∀ host : Option String, (Service.make name attributes host).2 = attributes := by
  refine ⟨hsInit_snd name attributes, ?_, ?_⟩
  · unfold Host.make
    split <;> rename_i heq <;>
    · show _ = attributes
      rw [← hsInit_snd name attributes, heq]
  · intro host
    unfold Service.make
    split <;> rename_i heq
    · show _ = attributes
      rw [← hsInit_snd name attributes, heq]
    · cases host <;>
      · show _ = attributes
        rw [← hsInit_snd name attributes, heq]

/-- On a mapping whose `current_state` entry is absent or classifiable,
the shared constructor fails with `MissingField` naming exactly the
first absent required field, in declared field order. -/
theorem hsInit_missing_field (name : String) (attrs : RawAttrs) (f : String)
    (hfm : firstMissingField attrs = some f)
    (hcs : dictLookup attrs "current_state" = none ∨
      ∃ c, dictLookup attrs "current_state" = some c ∧
        c ∈ (["0", "1", "2", "3"] : List String)) :
    (hsInit name attrs).1 = Except.error (PyErr.missingField f) := by
  rcases h1 : dictLookup attrs "current_state" with _ | c1
  · simp [firstMissingField, requiredFields, List.find?, h1] at hfm
    subst hfm
    simp [hsInit, step, stepE, dictGetItem, h1]
  · obtain ⟨st, hst⟩ : ∃ st, status_to_s c1 = Except.ok st := by
      rcases hcs with hnone | ⟨c, hc, hmem⟩
      · rw [h1] at hnone
        exact absurd hnone (by simp)
      · rw [h1] at hc
        injection hc with hcc
        subst hcc
        rcases (by simpa using hmem : c1 = "0" ∨ c1 = "1" ∨ c1 = "2" ∨ c1 = "3") with
          rfl | rfl | rfl | rfl
        exacts [⟨"OK", rfl⟩, ⟨"WARN", rfl⟩, ⟨"CRIT", rfl⟩, ⟨"UNK", rfl⟩]
    rcases h2 : dictLookup attrs "plugin_output" with _ | v2
    · simp [firstMissingField, requiredFields, List.find?, h1, h2] at hfm
      subst hfm
      simp [hsInit, step, stepE, dictGetItem, h1, h2, hst]
    · rcases h3 : dictLookup attrs "notifications_enabled" with _ | v3
      · simp [firstMissingField, requiredFields, List.find?, h1, h2, h3] at hfm
        subst hfm
        simp [hsInit, step, stepE, dictGetItem, h1, h2, h3, hst]
      · rcases h4 : dictLookup attrs "last_check" with _ | v4
        · simp [firstMissingField, requiredFields, List.find?, h1, h2, h3, h4] at hfm
          subst hfm
          simp [hsInit, step, stepE, dictGetItem, h1, h2, h3, h4, hst]
        · rcases h5 : dictLookup attrs "last_notification" with _ | v5
          · simp [firstMissingField, requiredFields, List.find?, h1, h2, h3, h4, h5] at hfm
            subst hfm
            simp [hsInit, step, stepE, dictGetItem, h1, h2, h3, h4, h5, hst]
          · rcases h6 : dictLookup attrs "active_checks_enabled" with _ | v6
            · simp [firstMissingField, requiredFields, List.find?, h1, h2, h3, h4, h5, h6] at hfm
              subst hfm
              simp [hsInit, step, stepE, dictGetItem, h1, h2, h3, h4, h5, h6, hst]
            · rcases h7 : dictLookup attrs "problem_has_been_acknowledged" with _ | v7
              · simp [firstMissingField, requiredFields, List.find?, h1, h2, h3, h4, h5, h6,
                  h7] at hfm
                subst hfm
                simp [hsInit, step, stepE, dictGetItem, h1, h2, h3, h4, h5, h6, h7, hst]
              · rcases h8 : dictLookup attrs "last_hard_state" with _ | v8
                · simp [firstMissingField, requiredFields, List.find?, h1, h2, h3, h4, h5, h6,
                    h7, h8] at hfm
                  subst hfm
                  simp [hsInit, step, stepE, dictGetItem, h1, h2, h3, h4, h5, h6, h7, h8, hst]
                · rcases h9 : dictLookup attrs "scheduled_downtime_depth" with _ | v9
                  · simp [firstMissingField, requiredFields, List.find?, h1, h2, h3, h4, h5, h6,
                      h7, h8, h9] at hfm
                    subst hfm
                    simp [hsInit, step, stepE, dictGetItem, h1, h2, h3, h4, h5, h6, h7, h8, h9,
                      hst]
                  · rcases h10 : dictLookup attrs "performance_data" with _ | v10
                    · simp [firstMissingField, requiredFields, List.find?, h1, h2, h3, h4, h5,
                        h6, h7, h8, h9, h10] at hfm
                      subst hfm
                      simp [hsInit, step, stepE, dictGetItem, h1, h2, h3, h4, h5, h6, h7, h8,
                        h9, h10, hst]
                    · rcases h11 : dictLookup attrs "last_state_change" with _ | v11
                      · simp [firstMissingField, requiredFields, List.find?, h1, h2, h3, h4, h5,
                          h6, h7, h8, h9, h10, h11] at hfm
                        subst hfm
                        simp [hsInit, step, stepE, dictGetItem, h1, h2, h3, h4, h5, h6, h7, h8,
                          h9, h10, h11, hst]
                      · rcases h12 : dictLookup attrs "current_attempt" with _ | v12
                        · simp [firstMissingField, requiredFields, List.find?, h1, h2, h3, h4,
                            h5, h6, h7, h8, h9, h10, h11, h12] at hfm
                          subst hfm
                          simp [hsInit, step, stepE, dictGetItem, h1, h2, h3, h4, h5, h6, h7,
                            h8, h9, h10, h11, h12, hst]
                        · rcases h13 : dictLookup attrs "max_attempts" with _ | v13
                          · simp [firstMissingField, requiredFields, List.find?, h1, h2, h3, h4,
                              h5, h6, h7, h8, h9, h10, h11, h12, h13] at hfm
                            subst hfm
                            simp [hsInit, step, stepE, dictGetItem, h1, h2, h3, h4, h5, h6, h7,
                              h8, h9, h10, h11, h12, h13, hst]
                          · simp [firstMissingField, requiredFields, List.find?, h1, h2, h3, h4,
                              h5, h6, h7, h8, h9, h10, h11, h12, h13] at hfm

/-- Claim C1 (amended): for every name and every attribute mapping
lacking at least one of the thirteen required fields, provided the
`current_state` entry is absent or carries a valid status code,
constructing a `Host` or `Service` fails with `MissingField` naming
exactly the first missing field in declared order, and no entity is
produced.  (Without the proviso the claim is false: `current_state` is
classified immediately after being read, so a present-but-undefined
state code fails with `UnknownStatusCode` before any later missing
field is noticed.) -/
theorem construction_missing_field (name : String) (attrs : RawAttrs) (f : String)
    (hfm : firstMissingField attrs = some f)
    (hcs : dictLookup attrs "current_state" = none ∨
      ∃ c, dictLookup attrs "current_state" = some c ∧
        c ∈ (["0", "1", "2", "3"] : List String)) :
    (hsInit name attrs).1 = Except.error (PyErr.missingField f) ∧
    (Host.make name attrs).1 = Except.error (PyErr.missingField f) ∧
    ∀ host : Option String,
      (Service.make name attrs host).1 = Except.error (PyErr.missingField f) := by
  have hmain := hsInit_missing_field name attrs f hfm hcs
  have hpair : hsInit name attrs = (Except.error (PyErr.missingField f), attrs) := by
    rw [show hsInit name attrs = ((hsInit name attrs).1, (hsInit name attrs).2) from rfl,
      hmain, hsInit_snd]
  refine ⟨hmain, ?_, ?_⟩
  · simp [Host.make, hpair]
  · intro host
    cases host <;> simp [Service.make, hpair]

/-- Witness for C1 (amended): a mapping holding only a valid
`current_state` is missing `plugin_output` first, and `Host` and
`Service` construction both fail naming it. -/
theorem construction_missing_field_witness :
    (hsInit "web" [("current_state", "0")]).1 =
      Except.error (PyErr.missingField "plugin_output") ∧
    (Host.make "web" [("current_state", "0")]).1 =
      Except.error (PyErr.missingField "plugin_output") ∧
    (Service.make "web" [("current_state", "0")] none).1 =
      Except.error (PyErr.missingField "plugin_output") := by
  have h := construction_missing_field "web" [("current_state", "0")] "plugin_output" rfl
    (Or.inr ⟨"0", rfl, by decide⟩)
  exact ⟨h.1, h.2.1, h.2.2 none⟩

/-- Counterexample to C1 as stated: the mapping `{current_state: "7"}`
lacks twelve required fields, the first being `plugin_output`, yet
construction fails with `UnknownStatusCode "7"`, not with `MissingField`
naming the first missing field. -/
theorem construction_missing_field_cex :
    firstMissingField [("current_state", "7")] = some "plugin_output" ∧
    (hsInit "web" [("current_state", "7")]).1 =
      Except.error (PyErr.unknownStatusCode "7") ∧
    (hsInit "web" [("current_state", "7")]).1 ≠
      Except.error (PyErr.missingField "plugin_output") := by
  refine ⟨rfl, rfl, ?_⟩
  intro h
  rw [show (hsInit "web" [("current_state", "7")]).1 =
    Except.error (PyErr.unknownStatusCode "7") from rfl] at h
  exact PyErr.noConfusion (Except.error.inj h)

/-- Claim C4: from a mapping holding every required field with a state
code in `{"0","1","2","3"}`, construction succeeds, every accessor
returns the raw value unchanged except `current_state`, which holds the
classified severity name produced by the status classifier — a name
distinct from the raw code, which is not stored in the entity. -/
theorem construction_roundtrip (name : String) (attrs : RawAttrs)
    (vcs vpo vne vlc vln vace vack vlhs vsdd vpd vlsc vca vma : String)
    (hmem : vcs ∈ (["0", "1", "2", "3"] : List String))
    (h1 : dictLookup attrs "current_state" = some vcs)
    (h2 : dictLookup attrs "plugin_output" = some vpo)
    (h3 : dictLookup attrs "notifications_enabled" = some vne)
    (h4 : dictLookup attrs "last_check" = some vlc)
    (h5 : dictLookup attrs "last_notification" = some vln)
    (h6 : dictLookup attrs "active_checks_enabled" = some vace)
    (h7 : dictLookup attrs "problem_has_been_acknowledged" = some vack)
    (h8 : dictLookup attrs "last_hard_state" = some vlhs)
    (h9 : dictLookup attrs "scheduled_downtime_depth" = some vsdd)
    (h10 : dictLookup attrs "performance_data" = some vpd)
    (h11 : dictLookup attrs "last_state_change" = some vlsc)
    (h12 : dictLookup attrs "current_attempt" = some vca)
    (h13 : dictLookup attrs "max_attempts" = some vma) :
    ∃ st : String,
      status_to_s vcs = Except.ok st ∧ st ≠ vcs ∧
      (hsInit name attrs).1 = Except.ok
        { name := name, current_state := st, plugin_output := vpo,
          notifications_enabled := vne, last_check := vlc, last_notification := vln,
          active_checks_enabled := vace, problem_has_been_acknowledged := vack,
          last_hard_state := vlhs, scheduled_downtime_depth := vsdd,
          performance_data := vpd, last_state_change := vlsc,
          current_attempt := vca, max_attempts := vma } ∧
      (Host.make name attrs).1 = Except.ok
        { name := name, current_state := st, plugin_output := vpo,
          notifications_enabled := vne, last_check := vlc, last_notification := vln,
          active_checks_enabled := vace, problem_has_been_acknowledged := vack,
          last_hard_state := vlhs, scheduled_downtime_depth := vsdd,
          performance_data := vpd, last_state_change := vlsc,
          current_attempt := vca, max_attempts := vma, services := [] } := by
  rcases (by simpa using hmem : vcs = "0" ∨ vcs = "1" ∨ vcs = "2" ∨ vcs = "3") with
    rfl | rfl | rfl | rfl <;>
  · refine ⟨_, rfl, by decide, ?_, ?_⟩ <;>
      simp [hsInit, Host.make, step, stepE, dictGetItem, status_to_s, statusMap, dictLookup,
        h1, h2, h3, h4, h5, h6, h7, h8, h9, h10, h11, h12, h13]

/-- Witness for C4 at the concrete complete demo mapping, whose state
code `"2"` is stored as the severity name `"CRIT"`. -/
theorem construction_roundtrip_witness :
    ∃ st : String,
      status_to_s "2" = Except.ok st ∧ st ≠ "2" ∧
      (hsInit "web" demoAttrs).1 = Except.ok
        { name := "web", current_state := st, plugin_output := "DISK CRITICAL",
          notifications_enabled := "1", last_check := "1300000000",
          last_notification := "1300000100", active_checks_enabled := "1",
          problem_has_been_acknowledged := "0", last_hard_state := "2",
          scheduled_downtime_depth := "0", performance_data := "used=97%",
          last_state_change := "1299999000", current_attempt := "3",
          max_attempts := "3" } ∧
      (Host.make "web" demoAttrs).1 = Except.ok
        { name := "web", current_state := st, plugin_output := "DISK CRITICAL",
          notifications_enabled := "1", last_check := "1300000000",
          last_notification := "1300000100", active_checks_enabled := "1",
          problem_has_been_acknowledged := "0", last_hard_state := "2",
          scheduled_downtime_depth := "0", performance_data := "used=97%",
          last_state_change := "1299999000", current_attempt := "3",
          max_attempts := "3", services := [] } :=
  construction_roundtrip "web" demoAttrs "2" "DISK CRITICAL" "1" "1300000000" "1300000100"
    "1" "0" "2" "0" "used=97%" "1299999000" "3" "3" (by decide)
    rfl rfl rfl rfl rfl rfl rfl rfl rfl rfl rfl rfl rfl

/-- Taking while a predicate holds skips over a prefix on which it
holds everywhere. -/
theorem takeWhile_app {α : Type} (p : α → Bool) (ds rs : List α)
    (h : ∀ c ∈ ds, p c = true) :
    (ds ++ rs).takeWhile p = ds ++ rs.takeWhile p := by
  induction ds with
  | nil => simp
  | cons a l ih =>
    have ha : p a = true := h a (List.mem_cons_self a l)
    simp [List.takeWhile_cons, ha, ih (fun c hc => h c (List.mem_cons_of_mem a hc))]

/-- Dropping while a predicate holds removes a prefix on which it holds
everywhere. -/
theorem dropWhile_app {α : Type} (p : α → Bool) (ds rs : List α)
    (h : ∀ c ∈ ds, p c = true) :
    (ds ++ rs).dropWhile p = rs.dropWhile p := by
  induction ds with
  | nil => simp
  | cons a l ih =>
    have ha : p a = true := h a (List.mem_cons_self a l)
    simp [List.dropWhile_cons, ha, ih (fun c hc => h c (List.mem_cons_of_mem a hc))]

/-- A bare digit run parses to its integer value. -/
theorem tts_digits (ds : List Char) (hne : ds ≠ [])
    (hds : ∀ c ∈ ds, Char.isDigit c = true) :
    time_to_seconds_body (String.mk ds) = some (pyIntOfDigits ds) := by
  have htw : ds.takeWhile Char.isDigit = ds := by
    have h0 := takeWhile_app Char.isDigit ds [] hds
    simpa using h0
  have hdw : ds.dropWhile Char.isDigit = [] := by
    have h0 := dropWhile_app Char.isDigit ds [] hds
    simpa using h0
  simp [time_to_seconds_body, matchDuration, htw, hdw, hne]

/-- A digit run with one unit letter parses to value times the unit's
table entry. -/
theorem tts_digits_unit (ds : List Char) (hne : ds ≠ [])
    (hds : ∀ c ∈ ds, Char.isDigit c = true) (u : Char) (hu : u ∈ durationClass) :
    time_to_seconds_body (String.mk (ds ++ [u])) =
      some (pyIntOfDigits ds * ((durationTable.lookup u).getD 0)) := by
  have hud : Char.isDigit u = false := by
    rcases (by simpa [durationClass] using hu :
        u = 'w' ∨ u = 'd' ∨ u = 'h' ∨ u = 'm' ∨ u = 's') with
      rfl | rfl | rfl | rfl | rfl <;> rfl
  have htw : (ds ++ [u]).takeWhile Char.isDigit = ds := by
    rw [takeWhile_app Char.isDigit ds [u] hds]
    simp [List.takeWhile_cons, hud]
  have hdw : (ds ++ [u]).dropWhile Char.isDigit = [u] := by
    rw [dropWhile_app Char.isDigit ds [u] hds]
    simp [List.dropWhile_cons, hud]
  simp [time_to_seconds_body, matchDuration, htw, hdw, hne, hu]

/-- Whenever the parser returns a value, the input was a nonempty digit
run optionally followed by a single unit letter. -/
theorem tts_shape (s : String) (hval : time_to_seconds_body s ≠ none) :
    ∃ ds : List Char, ds ≠ [] ∧ (∀ c ∈ ds, Char.isDigit c = true) ∧
      (s.data = ds ∨ ∃ u, u ∈ durationClass ∧ s.data = ds ++ [u]) := by
  have hds : ∀ c ∈ s.data.takeWhile Char.isDigit, Char.isDigit c = true :=
    fun c hc => List.mem_takeWhile_imp hc
  refine ⟨s.data.takeWhile Char.isDigit, ?_, hds, ?_⟩
  · intro h0
    apply hval
    simp [time_to_seconds_body, matchDuration, h0]
  · rcases hdw : s.data.dropWhile Char.isDigit with _ | ⟨u, rest⟩
    · left
      conv_lhs => rw [← List.takeWhile_append_dropWhile Char.isDigit s.data]
      rw [hdw, List.append_nil]
    · rcases rest with _ | ⟨u2, rest2⟩
      · by_cases hu : u ∈ durationClass
        · right
          refine ⟨u, hu, ?_⟩
          conv_lhs => rw [← List.takeWhile_append_dropWhile Char.isDigit s.data]
          rw [hdw]
        · exact absurd (by simp [time_to_seconds_body, matchDuration, hdw, hu]) hval
      · exact absurd (by simp [time_to_seconds_body, matchDuration, hdw]) hval

/-- Claim C3: every string of one or more digits followed by at most one
unit letter parses to the digit value times the unit's multiplier
(`w`=604800, `d`=86400, `h`=3600, `m`=60, `s`=1; absent unit means the
bare value), every valued parse arose from a string of exactly that
shape (so every other string yields "no value", not an error), and the
specification's concrete examples hold. -/
theorem time_to_seconds_body_spec :
    (∀ ds : List Char, ds ≠ [] → (∀ c ∈ ds, Char.isDigit c = true) →
      time_to_seconds_body (String.mk ds) = some (pyIntOfDigits ds) ∧
      ∀ u m, (u, m) ∈ durationTable →
        time_to_seconds_body (String.mk (ds ++ [u])) = some (pyIntOfDigits ds * m)) ∧
    (∀ s : String, time_to_seconds_body s ≠ none →
      ∃ ds : List Char, ds ≠ [] ∧ (∀ c ∈ ds, Char.isDigit c = true) ∧
        (s.data = ds ∨ ∃ u, u ∈ durationClass ∧ s.data = ds ++ [u])) ∧
    (time_to_seconds_body "2h" = some 7200 ∧ time_to_seconds_body "50m" = some 3000 ∧
     time_to_seconds_body "1w" = some 604800 ∧ time_to_seconds_body "10" = some 10 ∧
     time_to_seconds_body "abc" = none ∧ time_to_seconds_body "" = none ∧
     time_to_seconds_body "3x" = none) := by
  refine ⟨?_, tts_shape, rfl, rfl, rfl, rfl, rfl, rfl, rfl⟩
  intro ds hne hds
  refine ⟨tts_digits ds hne hds, ?_⟩
  intro u m hum
  rcases (by simpa [durationTable, Prod.ext_iff] using hum :
      (u = 'w' ∧ m = 604800) ∨ (u = 'd' ∧ m = 86400) ∨ (u = 'h' ∧ m = 3600) ∨
      (u = 'm' ∧ m = 60) ∨ (u = 's' ∧ m = 1)) with
    ⟨rfl, rfl⟩ | ⟨rfl, rfl⟩ | ⟨rfl, rfl⟩ | ⟨rfl, rfl⟩ | ⟨rfl, rfl⟩ <;>
  · rw [tts_digits_unit ds hne hds _ (by decide)]
    rfl

/-- Witness for C3: `"50m"` parses to fifty minutes in seconds. -/
theorem time_to_seconds_body_spec_witness :
    time_to_seconds_body (String.mk ['5', '0', 'm']) = some (pyIntOfDigits ['5', '0'] * 60) :=
  (time_to_seconds_body_spec.1 ['5', '0'] (by decide) (by decide)).2 'm' 60 (by decide)

/-- Claim C3 (code bug): the module imports only `sys`, never `re`, so
every call to `time_to_seconds` raises `NameError` on the unbound name
`re` — it never returns a value and never returns "no value".  The
claimed behaviour is exactly what the function's own body computes once
the missing import is supplied (see the body theorems above): at the
failing input `"2h"` that intended result is 7200. -/
theorem time_to_seconds_raises :
    (∀ inp : String, time_to_seconds inp = Except.error (PyErr.nameError "re")) ∧
    time_to_seconds_body "2h" = some 7200 :=
  ⟨fun _ => rfl, rfl⟩

/-- The host value `Host.make` builds from the demo attribute mapping. -/
def demoHost : Host :=
  { name := "web", current_state := "CRIT", plugin_output := "DISK CRITICAL",
    notifications_enabled := "1", last_check := "1300000000",
    last_notification := "1300000100", active_checks_enabled := "1",
    problem_has_been_acknowledged := "0", last_hard_state := "2",
    scheduled_downtime_depth := "0", performance_data := "used=97%",
    last_state_change := "1299999000", current_attempt := "3",
    max_attempts := "3", services := [] }

/-- Witness for C10 on the concrete demo attribute mapping. -/
theorem host_make_services_empty_witness : demoHost.services = [] :=
  host_make_services_empty "web" demoAttrs demoHost rfl

end NcliUtils
